import Mathlib

/-!
Verification of the routing-and-orchestration decision engine of the
customer-support chatbot repository.

The definitions below are shallow embeddings of the Python source:
  - `get_routing_decision`        from intent_router.py (IntentRouter.get_routing_decision)
  - `apply_sentiment_override`    from src/nodes/intent_node.py (IntentNode.__call__, the
                                  sentiment-escalation block)
  - `should_retrieve` and the graph wiring from src/graph/chatbot_graph.py
  - `has_direct_response`, `get_direct_response` from src/llm/prompts.py
  - `generate_response` dispatch  from src/nodes/generate_node.py (GenerateNode.__call__)
  - `retrieve_results`, `format_context`, `create_query_embedding` from src/retriever.py
  - `predict_probabilities`       from intent_router.py (IntentRouter.predict_intent)

Python floats that only enter comparisons are modelled as rationals; Python dicts
keyed by strings are modelled as association lists with first-match lookup, which
agrees with dict lookup because all embedded dicts have pairwise distinct keys.
-/

set_option autoImplicit false

/-- First-match lookup in an association list; embeds Python `dict.get(k)` for the
concrete dicts of the source, all of which have pairwise distinct keys. -/
def dictGet {α : Type} : List (String × α) → String → Option α
  | [], _ => none
  | (k, v) :: rest, q => if k = q then some v else dictGet rest q

/-- Per-intent routing info, as built by IntentRouter._build_intent_mapping from
routing_config.json: the bucket name and the cost tier string of the bucket that
lists the intent.  The display-only description field is not modelled: no claim
reads it. -/
structure RoutingInfo where
  bucket : String
  cost : String
deriving DecidableEq, Repr

/-- Result record of IntentRouter.get_routing_decision.  The human-readable
`reason` string (built by Python percent-formatting) is display-only and is read
by no claim, so it is not modelled. -/
structure RoutingDecision where
  bucket : String
  action : String
  cost_tier : String
deriving DecidableEq, Repr

/-- Embeds IntentRouter.get_routing_decision (intent_router.py, lines 208-259):
confidence below the threshold escalates first; then an intent absent from the
intent-to-bucket mapping escalates; otherwise the decision copies the bucket of
the config entry, with action equal to the bucket name and the cost tier of the
entry. -/
def get_routing_decision (confidence_threshold : ℚ)
    (intent_to_bucket : List (String × RoutingInfo))
    (intent : String) (confidence : ℚ) : RoutingDecision :=
  if confidence < confidence_threshold then
    { bucket := "BUCKET_C", action := "LOW_CONFIDENCE_ESCALATE", cost_tier := "High" }
  else
    match dictGet intent_to_bucket intent with
    | none =>
        { bucket := "BUCKET_C", action := "UNKNOWN_INTENT_ESCALATE", cost_tier := "High" }
    | some routing_info =>
        { bucket := routing_info.bucket, action := routing_info.bucket,
          cost_tier := routing_info.cost }

/-- Embeds the sentiment-escalation block of IntentNode.__call__
(src/nodes/intent_node.py, lines 88-106): escalation requires NEGATIVE label,
score strictly above 0.75, anger keywords present, and a current bucket other
than BUCKET_C; when it fires it overwrites bucket, cost tier and action. -/
def apply_sentiment_override (decision : RoutingDecision)
    (sentiment_label : String) (sentiment_score : ℚ)
    (has_anger : Bool) : RoutingDecision :=
  let is_negative := sentiment_label = "NEGATIVE"
  let high_confidence := sentiment_score > 3 / 4
  let should_escalate := is_negative ∧ high_confidence ∧ has_anger = true
  if should_escalate ∧ decision.bucket ≠ "BUCKET_C" then
    { decision with bucket := "BUCKET_C", cost_tier := "high",
                    action := "escalate_sentiment" }
  else
    decision

/-- Composition performed by IntentNode.__call__: the routing decision of
IntentRouter followed by the sentiment override. -/
def route_and_override (confidence_threshold : ℚ)
    (intent_to_bucket : List (String × RoutingInfo))
    (intent : String) (confidence : ℚ)
    (sentiment_label : String) (sentiment_score : ℚ)
    (has_anger : Bool) : RoutingDecision :=
  apply_sentiment_override
    (get_routing_decision confidence_threshold intent_to_bucket intent confidence)
    sentiment_label sentiment_score has_anger

/-- Embeds DIRECT_RESPONSE_TEMPLATES from src/llm/prompts.py: the canned
responses for BUCKET_A intents, transcribed verbatim. -/
def DIRECT_RESPONSE_TEMPLATES : List (String × String) :=
  [("check_invoice", "I can help you check your invoice. Please provide your order number or email address, and I'll look it up for you right away."),
   ("check_payment_methods", "We accept the following payment methods:\n• Credit/Debit cards (Visa, Mastercard, American Express, Discover)\n• PayPal\n• Apple Pay\n• Google Pay\n• Bank transfer (for orders over $500)\n\nAll payments are secure and encrypted."),
   ("track_order", "I'd be happy to help you track your order! Please provide your order number (found in your confirmation email), and I'll get you the latest shipping information."),
   ("delivery_options", "We offer several delivery options:\n\nStandard Delivery: 5-7 business days (Free on orders $50+)\nExpress Delivery: 2-3 business days ($9.99)\nNext Day Delivery: Next business day ($19.99)\n\nShipping costs may vary by location and will be calculated at checkout."),
   ("check_refund_policy", "Our refund policy:\n\n• 30-day return window from purchase date\n• Items must be unused and in original packaging\n• Full refund to original payment method\n• Free return shipping on defective items\n• 10% restocking fee may apply on some items\n\nTo start a return, visit your account's order history or contact us with your order number."),
   ("check_cancellation_fee", "Cancellation policy:\n\n• Free cancellation within 24 hours of order placement\n• After 24 hours: 10% processing fee may apply\n• Orders already shipped cannot be cancelled (but can be returned)\n• Digital products/services: cancellation only before download/activation\n\nTo cancel, go to your order details or contact us immediately."),
   ("delivery_period", "Delivery timeframes:\n\nStandard Delivery: 5-7 business days\nExpress Delivery: 2-3 business days  \nNext Day Delivery: 1 business day (order by 2 PM)\n\nNote: Business days exclude weekends and holidays. You'll receive tracking information once your order ships."),
   ("track_refund", "To track your refund:\n\n1. Provide your order number\n2. I'll check the refund status in our system\n3. Refund timeline:\n   • Processing: 3-5 business days\n   • Bank/card credit: 5-10 business days after processing\n   \nYou'll receive an email confirmation once the refund is processed.")]

/-- Embeds has_direct_response from src/llm/prompts.py: whether a canned
template exists for the intent. -/
def has_direct_response (intent : String) : Bool :=
  (dictGet DIRECT_RESPONSE_TEMPLATES intent).isSome

/-- Embeds get_direct_response from src/llm/prompts.py with its default
fallback (the call in GenerateNode passes no fallback argument). -/
def get_direct_response (intent : String) : String :=
  (dictGet DIRECT_RESPONSE_TEMPLATES intent).getD
    "I can help you with that. Could you please provide more details?"

/-- The slice of ChatbotState (src/state/state.py) read or written by the
conditional edge of the graph; the remaining fields are neither read nor
written by the transitions modelled here. -/
structure GState where
  predicted_intent : String
  bucket : String
  cost_tier : String
  action : String
deriving DecidableEq, Repr

/-- Embeds CustomerSupportGraph._should_retrieve (src/graph/chatbot_graph.py,
lines 32-68): returns the chosen edge label together with the (possibly
mutated) state, since the Python method mutates state in the missing-template
branch before returning the edge. -/
def should_retrieve (state : GState) : String × GState :=
  if state.bucket = "BUCKET_A" then
    if ¬ has_direct_response state.predicted_intent then
      ("retrieve", { state with bucket := "BUCKET_B", cost_tier := "low" })
    else
      ("generate", state)
  else if state.bucket = "BUCKET_B" then
    ("retrieve", state)
  else
    ("generate", state)

/-- The node sequence the compiled graph of _build_graph executes after the
intent node, per its wiring: entry point intent, a conditional edge mapping
the label retrieve to the retrieve node and generate to the generate node, an
unconditional edge retrieve to generate, and generate to END. -/
def executed_nodes (state : GState) : List String :=
  if (should_retrieve state).1 = "retrieve" then
    ["intent", "retrieve", "generate"]
  else
    ["intent", "generate"]

/-- The bucket after the conditional edge ran: the final bucket of the request,
since no later node writes the bucket field. -/
def final_bucket (state : GState) : String :=
  (should_retrieve state).2.bucket

/-- Metadata payload of one knowledge-base entry (the dict stored under the
metadata key of a FAISS metadata entry): the two fields read by retrieve and
format_context. -/
structure DocMeta where
  instruction : String
  response : String
deriving DecidableEq, Repr

/-- One entry of the metadata store loaded from faiss_metadata.json: an id and
the payload dict. -/
structure MetaEntry where
  id : String
  metadata : DocMeta
deriving DecidableEq, Repr

/-- One retrieved document as assembled by RAGRetriever.retrieve. -/
structure RetrievedDoc where
  id : String
  score : ℚ
  metadata : DocMeta
deriving DecidableEq, Repr

/-- Python list indexing `xs[i]` for a possibly negative int index: a negative
index counts from the end of the list; none models the IndexError raised when
the index is out of range on both readings. -/
def pyGet {α : Type} (xs : List α) (i : Int) : Option α :=
  if 0 ≤ i then xs.get? i.toNat
  else if 0 ≤ i + (xs.length : Int) then xs.get? (i + (xs.length : Int)).toNat
  else none

/-- Embeds the result loop of RAGRetriever.retrieve (src/retriever.py, lines
117-126) over the (index position, score) pairs the FAISS search returned, in
their returned order.  A pair whose position is at least the metadata length
is skipped; every other position — negative positions included, since the
Python guard is only `idx < len(self.metadata)` — is looked up with Python
list indexing, and an IndexError there aborts the whole call (none). -/
def retrieve_results (metadata : List MetaEntry) :
    List (Int × ℚ) → Option (List RetrievedDoc)
  | [] => some []
  | (idx, score) :: rest =>
    if idx < (metadata.length : Int) then
      match pyGet metadata idx with
      | none => none
      | some entry =>
        match retrieve_results metadata rest with
        | none => none
        | some results =>
          some ({ id := entry.id, score := score, metadata := entry.metadata } :: results)
    else
      retrieve_results metadata rest

/-- The filter claim C6 states, written from the words of the spec for
comparison with retrieve_results: keep exactly the pairs whose position
validly indexes the metadata store (at least zero and below its length), in
the order the index returned them. -/
def retrieve_spec (metadata : List MetaEntry) : List (Int × ℚ) → List RetrievedDoc
  | [] => []
  | (idx, score) :: rest =>
    if h : 0 ≤ idx ∧ idx.toNat < metadata.length then
      let entry := metadata.get ⟨idx.toNat, h.2⟩
      { id := entry.id, score := score, metadata := entry.metadata } ::
        retrieve_spec metadata rest
    else
      retrieve_spec metadata rest

/-- Embeds RAGRetriever.create_query_embedding (src/retriever.py, lines 66-91)
over an abstract embedding model: encode maps the query and the index of the
encode invocation to the produced vector (the second argument lets distinct
invocations produce different results — exactly what the cache masks), ctr is
the invocation counter, and cache is the association list standing for the
dict self._embedding_cache, with vectors abstracted as naturals.  The call
returns the embedding and the new cache: a fresh result is inserted only while
the cache holds fewer than 1000 entries, and nothing is ever removed. -/
def create_query_embedding (encode : String → Nat → Nat) (ctr : Nat)
    (cache : List (String × Nat)) (query : String) : Nat × List (String × Nat) :=
  match dictGet cache query with
  | some emb => (emb, cache)
  | none =>
    let emb := encode query ctr
    if cache.length < 1000 then (emb, cache ++ [(query, emb)])
    else (emb, cache)

/-- A sequence of further create_query_embedding calls, threading the
invocation counter and the cache. -/
def run_calls (encode : String → Nat → Nat) :
    Nat → List (String × Nat) → List String → List (String × Nat)
  | _, cache, [] => cache
  | ctr, cache, q :: qs =>
    run_calls encode (ctr + 1) (create_query_embedding encode ctr cache q).2 qs

/-- The numbered Q/A blocks of RAGRetriever.format_context, one per document,
numbered from 1 as Python enumerate(documents, 1) numbers them. -/
def context_blocks : Nat → List RetrievedDoc → List String
  | _, [] => []
  | i, doc :: rest =>
    ("[Context " ++ toString i ++ "]\nQuestion: " ++ doc.metadata.instruction ++
      "\nAnswer: " ++ doc.metadata.response) :: context_blocks (i + 1) rest

/-- Embeds Python str.join applied by format_context: the separator stands
between consecutive parts. -/
def join_sep (sep : String) : List String → String
  | [] => ""
  | [part] => part
  | part :: rest => part ++ sep ++ join_sep sep rest

/-- Embeds RAGRetriever.format_context (src/retriever.py, lines 128-152). -/
def format_context (documents : List RetrievedDoc) : String :=
  if documents.isEmpty then
    "No relevant information found in knowledge base."
  else
    join_sep "\n\n" (context_blocks 1 documents)

/-- Embeds the escalation_messages dict of
GenerateNode._generate_bucket_c_response (src/nodes/generate_node.py, lines
221-229), transcribed verbatim. -/
def escalation_messages : List (String × String) :=
  [("complaint", "I understand you're experiencing an issue and I sincerely apologize for any inconvenience. I'm connecting you with a senior support specialist who can better assist you and ensure your concern is fully addressed."),
   ("payment_issue", "Payment issues require immediate attention. I'm escalating this to our payment support team right away. They'll contact you within the next 30 minutes to resolve this. In the meantime, please don't attempt any additional payments."),
   ("contact_human_agent", "I'm connecting you with a human agent now. They'll be with you shortly. Thank you for your patience."),
   ("contact_customer_service", "Let me transfer you to our customer service team. They have access to more tools and resources to help with your request. Please hold for just a moment.")]

/-- Embeds GenerateNode._generate_bucket_c_response: the static escalation
message keyed by intent, with the generic fallback for intents outside the
table. -/
def generate_bucket_c_response (intent : String) : String :=
  (dictGet escalation_messages intent).getD
    "I'm escalating your request to a specialist who can provide better assistance. You'll be connected shortly. Thank you for your patience."

/-- The generic message of the unhandled-bucket branch of
GenerateNode.__call__. -/
def unable_to_process : String :=
  "I apologize, but I'm unable to process your request at the moment. Please contact our support team directly."

/-- Embeds the bucket dispatch of GenerateNode.__call__
(src/nodes/generate_node.py, lines 236-264), which stores the chosen string in
final_response.  The BUCKET_B branch calls the external LLM and cleans its
text; that call is an external capability (spec section 6), so its cleaned
text enters here as the parameter rag_response, stored unchanged. -/
def generate_response (bucket intent rag_response : String) : String :=
  if bucket = "BUCKET_A" then get_direct_response intent
  else if bucket = "BUCKET_B" then rag_response
  else if bucket = "BUCKET_C" then generate_bucket_c_response intent
  else unable_to_process

/-- The probability-extraction inputs of IntentRouter.predict_intent for one
input text, abstracting the pickled sklearn model: proba is the result row of
predict_proba when that call succeeds (none models the AttributeError of the
compatibility path), decision the result of decision_function when the model
has one (a scalar for binary models or a per-class score array), classes the
class list. -/
structure ClassifierOutcome where
  classes : List String
  proba : Option (List ℚ)
  decision : Option (ℚ ⊕ List ℚ)

/-- Embeds the probability extraction of IntentRouter.predict_intent
(intent_router.py, lines 172-188): predict_proba when available; else for a
scalar decision_function result the pseudo-probabilities [1, 0]; else the raw
decision_function score array, unconverted; else uniform probabilities over
the classes. -/
def predict_probabilities (m : ClassifierOutcome) : List ℚ :=
  match m.proba with
  | some ps => ps
  | none =>
    match m.decision with
    | some (Sum.inl _) => [1, 0]
    | some (Sum.inr ds) => ds
    | none => List.replicate m.classes.length (1 / (m.classes.length : ℚ))

/-- Embeds `confidence = float(max(probabilities))` (intent_router.py, line
190): Python max over the sequence; none models the error Python max raises on
an empty sequence. -/
def predict_confidence (m : ClassifierOutcome) : Option ℚ :=
  (predict_probabilities m).max?

/-- Claim C1: whenever confidence is strictly below the threshold,
get_routing_decision returns BUCKET_C with action LOW_CONFIDENCE_ESCALATE and the
high cost tier, for every intent and every intent-to-bucket mapping — the
confidence check precedes the intent lookup. -/
theorem low_confidence_escalates (confidence_threshold : ℚ)
    (intent_to_bucket : List (String × RoutingInfo))
    (intent : String) (confidence : ℚ)
    (h : confidence < confidence_threshold) :
    get_routing_decision confidence_threshold intent_to_bucket intent confidence =
      { bucket := "BUCKET_C", action := "LOW_CONFIDENCE_ESCALATE", cost_tier := "High" } := by
  unfold get_routing_decision
  simp [h]

/-- Witness for C1: a concrete low-confidence call, with the intent present in the
mapping, still escalates. -/
theorem low_confidence_escalates_witness :
    (1 : ℚ) / 4 < 1 / 2 ∧
    get_routing_decision (1 / 2) [("track_order", ⟨"BUCKET_A", "Zero"⟩)] "track_order" (1 / 4) =
      { bucket := "BUCKET_C", action := "LOW_CONFIDENCE_ESCALATE", cost_tier := "High" } :=
  ⟨by norm_num,
   low_confidence_escalates (1 / 2) [("track_order", ⟨"BUCKET_A", "Zero"⟩)] "track_order" (1 / 4)
     (by norm_num)⟩

/-- Claim C5: with confidence at or above the threshold, an intent absent from the
mapping yields BUCKET_C with action UNKNOWN_INTENT_ESCALATE and the high cost
tier, while a present intent yields the bucket and cost tier of its config entry
with the action equal to the bucket name. -/
theorem threshold_met_routing (confidence_threshold : ℚ)
    (intent_to_bucket : List (String × RoutingInfo))
    (intent : String) (confidence : ℚ)
    (h : confidence_threshold ≤ confidence) :
    (dictGet intent_to_bucket intent = none →
      get_routing_decision confidence_threshold intent_to_bucket intent confidence =
        { bucket := "BUCKET_C", action := "UNKNOWN_INTENT_ESCALATE", cost_tier := "High" }) ∧
    (∀ routing_info : RoutingInfo,
      dictGet intent_to_bucket intent = some routing_info →
      get_routing_decision confidence_threshold intent_to_bucket intent confidence =
        { bucket := routing_info.bucket, action := routing_info.bucket,
          cost_tier := routing_info.cost }) := by
  constructor
  · intro hnone
    unfold get_routing_decision
    simp [not_lt.mpr h, hnone]
  · intro routing_info hsome
    unfold get_routing_decision
    simp [not_lt.mpr h, hsome]

/-- Witness for C5: a concrete confident call with an unknown intent escalates, and
a concrete confident call with a known intent copies the config entry. -/
theorem threshold_met_routing_witness :
    ((1 : ℚ) / 2 ≤ 9 / 10 ∧
      get_routing_decision (1 / 2) [("cancel_order", ⟨"BUCKET_B", "Low"⟩)] "mystery" (9 / 10) =
        { bucket := "BUCKET_C", action := "UNKNOWN_INTENT_ESCALATE", cost_tier := "High" }) ∧
    ((1 : ℚ) / 2 ≤ 9 / 10 ∧
      get_routing_decision (1 / 2) [("cancel_order", ⟨"BUCKET_B", "Low"⟩)] "cancel_order" (9 / 10) =
        { bucket := "BUCKET_B", action := "BUCKET_B", cost_tier := "Low" }) :=
  ⟨⟨by norm_num,
    (threshold_met_routing (1 / 2) [("cancel_order", ⟨"BUCKET_B", "Low"⟩)] "mystery" (9 / 10)
      (by norm_num)).1 (by rfl)⟩,
   ⟨by norm_num,
    (threshold_met_routing (1 / 2) [("cancel_order", ⟨"BUCKET_B", "Low"⟩)] "cancel_order" (9 / 10)
      (by norm_num)).2 ⟨"BUCKET_B", "Low"⟩ (by rfl)⟩⟩

/-- Claim C2: the sentiment override fires exactly when all three escalation
conditions hold and the bucket is not already BUCKET_C; when it fires it produces
BUCKET_C with the high cost tier and action escalate_sentiment; it is idempotent,
and it never changes a decision already at BUCKET_C. -/
theorem sentiment_override_spec (decision : RoutingDecision)
    (sentiment_label : String) (sentiment_score : ℚ) (has_anger : Bool) :
    (apply_sentiment_override decision sentiment_label sentiment_score has_anger ≠ decision ↔
      (sentiment_label = "NEGATIVE" ∧ sentiment_score > 3 / 4 ∧ has_anger = true ∧
        decision.bucket ≠ "BUCKET_C")) ∧
    (sentiment_label = "NEGATIVE" → sentiment_score > 3 / 4 → has_anger = true →
      decision.bucket ≠ "BUCKET_C" →
      apply_sentiment_override decision sentiment_label sentiment_score has_anger =
        { bucket := "BUCKET_C", action := "escalate_sentiment", cost_tier := "high" }) ∧
    (apply_sentiment_override
        (apply_sentiment_override decision sentiment_label sentiment_score has_anger)
        sentiment_label sentiment_score has_anger =
      apply_sentiment_override decision sentiment_label sentiment_score has_anger) ∧
    (decision.bucket = "BUCKET_C" →
      apply_sentiment_override decision sentiment_label sentiment_score has_anger = decision) := by
  unfold apply_sentiment_override
  by_cases hneg : sentiment_label = "NEGATIVE" <;>
    by_cases hscore : sentiment_score > 3 / 4 <;>
    by_cases hanger : has_anger = true <;>
    by_cases hbucket : decision.bucket = "BUCKET_C" <;>
    simp_all <;>
    (try intro h) <;>
    (try exact hbucket ((congrArg RoutingDecision.bucket h).symm))

/-- Witness for C2: a concrete negative, high-score, angry message escalates a
BUCKET_B decision. -/
theorem sentiment_override_spec_witness :
    apply_sentiment_override ⟨"BUCKET_B", "BUCKET_B", "Low"⟩ "NEGATIVE" (9 / 10) true =
      { bucket := "BUCKET_C", action := "escalate_sentiment", cost_tier := "high" } :=
  (sentiment_override_spec ⟨"BUCKET_B", "BUCKET_B", "Low"⟩ "NEGATIVE" (9 / 10) true).2.1
    rfl (by norm_num) rfl (by simp)

/-- Helper: the sentiment override either lands on BUCKET_C or leaves the
decision untouched. -/
theorem override_bucket_c_or_id (decision : RoutingDecision)
    (lab : String) (score : ℚ) (anger : Bool) :
    (apply_sentiment_override decision lab score anger).bucket = "BUCKET_C" ∨
    apply_sentiment_override decision lab score anger = decision := by
  unfold apply_sentiment_override
  by_cases hc : ((lab = "NEGATIVE") ∧ score > 3 / 4 ∧ anger = true) ∧
      decision.bucket ≠ "BUCKET_C" <;>
    simp [hc]

/-- Helper: a routing decision of get_routing_decision either has its action
equal to its bucket or sits on BUCKET_C (the two escalation branches). -/
theorem routing_action_or_bucket_c (thr : ℚ)
    (intent_to_bucket : List (String × RoutingInfo)) (intent : String) (conf : ℚ) :
    (get_routing_decision thr intent_to_bucket intent conf).action =
      (get_routing_decision thr intent_to_bucket intent conf).bucket ∨
    (get_routing_decision thr intent_to_bucket intent conf).bucket = "BUCKET_C" := by
  unfold get_routing_decision
  split
  · right; rfl
  · rcases hlook : dictGet intent_to_bucket intent with _ | info <;> simp [hlook]

/-- Helper: on index results whose positions are all nonnegative, the retrieve
loop agrees with the spec-form filter. -/
theorem retrieve_results_eq_spec (metadata : List MetaEntry) :
    ∀ pairs : List (Int × ℚ), (∀ p ∈ pairs, (0 : Int) ≤ p.1) →
      retrieve_results metadata pairs = some (retrieve_spec metadata pairs) := by
  intro pairs
  induction pairs with
  | nil => intro _; rfl
  | cons p rest ih =>
    intro hnn
    obtain ⟨idx, score⟩ := p
    have h0 : (0 : Int) ≤ idx := hnn (idx, score) (by simp)
    have hrest := ih fun q hq => hnn q (by simp [hq])
    by_cases hlt : idx < (metadata.length : Int)
    · have hl2 : idx.toNat < metadata.length := by omega
      have hentry : metadata.get? idx.toNat = some (metadata.get ⟨idx.toNat, hl2⟩) :=
        List.get?_eq_get hl2
      simp only [retrieve_results, if_pos hlt, pyGet, if_pos h0, hentry, hrest]
      simp only [retrieve_spec, dif_pos (And.intro h0 hl2)]
    · have hl2 : ¬(0 ≤ idx ∧ idx.toNat < metadata.length) := by omega
      simp only [retrieve_results, if_neg hlt, hrest]
      simp only [retrieve_spec, dif_neg hl2]

/-- Helper: the spec-form filter returns at most as many documents as the
index returned pairs. -/
theorem retrieve_spec_length_le (metadata : List MetaEntry) :
    ∀ pairs : List (Int × ℚ), (retrieve_spec metadata pairs).length ≤ pairs.length := by
  intro pairs
  induction pairs with
  | nil => exact Nat.le_refl _
  | cons p rest ih =>
    obtain ⟨idx, score⟩ := p
    simp only [retrieve_spec]
    split
    · simpa using ih
    · exact Nat.le_trans ih (by simp)

/-- Claim C6 (amended): for every sequence of index results whose positions are
all nonnegative, retrieve keeps exactly the positions that validly index the
metadata store, in the order the index returned them, and returns at most k
documents when the index returned at most k pairs.  (As stated the claim also
covered negative positions, where it fails: see the counterexample.) -/
theorem retrieve_filters_and_bounds (metadata : List MetaEntry)
    (pairs : List (Int × ℚ)) (k : Nat)
    (hnn : ∀ p ∈ pairs, (0 : Int) ≤ p.1) (hk : pairs.length ≤ k) :
    retrieve_results metadata pairs = some (retrieve_spec metadata pairs) ∧
    (retrieve_spec metadata pairs).length ≤ k :=
  ⟨retrieve_results_eq_spec metadata pairs hnn,
   le_trans (retrieve_spec_length_le metadata pairs) hk⟩

/-- Counterexample to claim C6 as stated: the position -1 (the FAISS no-result
sentinel) is below the metadata length, so the guard `idx < len(self.metadata)`
keeps it instead of filtering it out, and Python indexing with -1 into the
empty metadata store raises IndexError — the call aborts (none) instead of
returning the list with the out-of-bounds position dropped. -/
theorem retrieve_filter_counterexample :
    retrieve_results [] [((-1 : Int), (0 : ℚ))] = none ∧
    retrieve_results [] [((-1 : Int), (0 : ℚ))] ≠
      some (retrieve_spec [] [((-1 : Int), (0 : ℚ))]) := by
  refine ⟨rfl, ?_⟩
  simp [retrieve_results, pyGet]

/-- Witness for amended C6: a concrete store of two entries with one valid and
one out-of-bounds position keeps exactly the valid one. -/
theorem retrieve_filters_and_bounds_witness :
    retrieve_results [⟨"d0", ⟨"q0", "a0"⟩⟩, ⟨"d1", ⟨"q1", "a1"⟩⟩]
        [((1 : Int), (9 : ℚ) / 10), ((5 : Int), 1 / 2)] =
      some (retrieve_spec [⟨"d0", ⟨"q0", "a0"⟩⟩, ⟨"d1", ⟨"q1", "a1"⟩⟩]
        [((1 : Int), (9 : ℚ) / 10), ((5 : Int), 1 / 2)]) ∧
    (retrieve_spec [⟨"d0", ⟨"q0", "a0"⟩⟩, ⟨"d1", ⟨"q1", "a1"⟩⟩]
        [((1 : Int), (9 : ℚ) / 10), ((5 : Int), 1 / 2)]).length ≤ 2 :=
  retrieve_filters_and_bounds
    [⟨"d0", ⟨"q0", "a0"⟩⟩, ⟨"d1", ⟨"q1", "a1"⟩⟩]
    [((1 : Int), (9 : ℚ) / 10), ((5 : Int), 1 / 2)] 2
    (by decide) (by decide)

/-- Helper: a lookup that succeeds still succeeds with the same value after
entries are appended on the right. -/
theorem dictGet_append_of_some {α : Type} (c d : List (String × α)) (q : String)
    (v : α) (h : dictGet c q = some v) : dictGet (c ++ d) q = some v := by
  induction c with
  | nil => simp [dictGet] at h
  | cons p rest ih =>
    obtain ⟨k, w⟩ := p
    by_cases hk : k = q <;> simp_all [dictGet]

/-- Helper: a lookup that misses the left part of an append looks in the right
part. -/
theorem dictGet_append_of_none {α : Type} (c d : List (String × α)) (q : String)
    (h : dictGet c q = none) : dictGet (c ++ d) q = dictGet d q := by
  induction c with
  | nil => simp [dictGet]
  | cons p rest ih =>
    obtain ⟨k, w⟩ := p
    by_cases hk : k = q <;> simp_all [dictGet]

/-- Helper: a call made while the cache is below the cap leaves its own result
retrievable under its query. -/
theorem create_query_embedding_hit (encode : String → Nat → Nat) (ctr : Nat)
    (cache : List (String × Nat)) (query : String) (h : cache.length < 1000) :
    dictGet (create_query_embedding encode ctr cache query).2 query =
      some (create_query_embedding encode ctr cache query).1 := by
  unfold create_query_embedding
  rcases hq : dictGet cache query with _ | emb
  · simp only [hq, if_pos h]
    rw [dictGet_append_of_none cache _ query hq]
    simp [dictGet]
  · simp [hq]

/-- Helper: a cached entry survives any later call, with its value unchanged
(nothing is evicted, and an insert only appends). -/
theorem create_query_embedding_persist (encode : String → Nat → Nat) (ctr : Nat)
    (cache : List (String × Nat)) (q2 query : String) (v : Nat)
    (h : dictGet cache query = some v) :
    dictGet (create_query_embedding encode ctr cache q2).2 query = some v := by
  unfold create_query_embedding
  rcases hq : dictGet cache q2 with _ | emb
  · by_cases hlen : cache.length < 1000 <;>
      simp [hq, hlen, dictGet_append_of_some cache _ query v h, h]
  · simp [hq, h]

/-- Helper: a cached entry survives any sequence of later calls. -/
theorem run_calls_persist (encode : String → Nat → Nat) (queries : List String) :
    ∀ (ctr : Nat) (cache : List (String × Nat)) (query : String) (v : Nat),
      dictGet cache query = some v →
      dictGet (run_calls encode ctr cache queries) query = some v := by
  induction queries with
  | nil => intro ctr cache query v h; simpa [run_calls] using h
  | cons q qs ih =>
    intro ctr cache query v h
    simp only [run_calls]
    exact ih _ _ _ _ (create_query_embedding_persist encode ctr cache q query v h)

/-- Helper: a call whose query is cached returns the cached value and leaves
the cache unchanged. -/
theorem create_query_embedding_cached (encode : String → Nat → Nat) (ctr : Nat)
    (cache : List (String × Nat)) (query : String) (v : Nat)
    (h : dictGet cache query = some v) :
    create_query_embedding encode ctr cache query = (v, cache) := by
  unfold create_query_embedding
  simp [h]

/-- Claim C8: one call admits at most one new entry, only by appending and only
while the cache holds fewer than 1000 entries (no eviction ever); hence a cache
at or below 1000 entries stays at or below 1000; and a call made while the
cache is below 1000 entries fixes the value every later call with the
identical query string returns, whatever the embedding model produces on
re-invocation and whatever other queries run in between. -/
theorem embedding_cache_spec (encode : String → Nat → Nat) (ctr ctr2 : Nat)
    (cache : List (String × Nat)) (query : String) (later : List String) :
    (∃ tail, (create_query_embedding encode ctr cache query).2 = cache ++ tail) ∧
    ((create_query_embedding encode ctr cache query).2 ≠ cache →
      cache.length < 1000) ∧
    (cache.length ≤ 1000 →
      (create_query_embedding encode ctr cache query).2.length ≤ 1000) ∧
    (cache.length < 1000 →
      (create_query_embedding encode ctr2
          (run_calls encode (ctr + 1) (create_query_embedding encode ctr cache query).2 later)
          query).1 =
        (create_query_embedding encode ctr cache query).1) := by
  refine ⟨?_, ?_, ?_, ?_⟩
  · rcases hq : dictGet cache query with _ | emb
    · by_cases hlen : cache.length < 1000
      · exact ⟨[(query, encode query ctr)], by unfold create_query_embedding; simp [hq, hlen]⟩
      · exact ⟨[], by unfold create_query_embedding; simp [hq, hlen]⟩
    · exact ⟨[], by unfold create_query_embedding; simp [hq]⟩
  · intro hne
    by_contra hlen
    apply hne
    unfold create_query_embedding
    rcases hq : dictGet cache query with _ | emb <;> simp [hq, hlen]
  · intro hle
    unfold create_query_embedding
    rcases hq : dictGet cache query with _ | emb
    · by_cases hlen : cache.length < 1000 <;> simp [hq, hlen] <;> omega
    · simp [hq, hle]
  · intro hlen
    have hhit := create_query_embedding_hit encode ctr cache query hlen
    have hper := run_calls_persist encode later (ctr + 1)
      (create_query_embedding encode ctr cache query).2 query
      (create_query_embedding encode ctr cache query).1 hhit
    simp [create_query_embedding_cached encode ctr2 _ query _ hper]

/-- Witness for C8: starting from the empty cache, a call for the query a
followed by calls for b, a and c still returns the first result for a, with an
embedding model that answers differently on every invocation. -/
theorem embedding_cache_spec_witness :
    (create_query_embedding (fun _ n => n) 77
        (run_calls (fun _ n => n) 1 (create_query_embedding (fun _ n => n) 0 [] "a").2
          ["b", "a", "c"])
        "a").1 =
      (create_query_embedding (fun _ n => n) 0 [] "a").1 :=
  (embedding_cache_spec (fun _ n => n) 0 77 [] "a" ["b", "a", "c"]).2.2.2 (by decide)

/-- Helper: joining a nonempty list of parts yields a string at least as long
as the first part. -/
theorem join_sep_length_head (sep part : String) (rest : List String) :
    part.length ≤ (join_sep sep (part :: rest)).length := by
  cases rest with
  | nil => simp [join_sep]
  | cons q qs => simp [join_sep, String.length_append]; omega

/-- Helper: the joined block list of a nonempty document list is at least as
long as the fixed head text of its first block. -/
theorem format_block_head_long (i : Nat) (doc : RetrievedDoc)
    (rest : List RetrievedDoc) :
    9 ≤ (join_sep "\n\n" (context_blocks i (doc :: rest))).length := by
  have h3 : context_blocks i (doc :: rest) =
      ("[Context " ++ toString i ++ "]\nQuestion: " ++ doc.metadata.instruction ++
        "\nAnswer: " ++ doc.metadata.response) :: context_blocks (i + 1) rest := rfl
  rw [h3]
  refine le_trans ?_ (join_sep_length_head _ _ _)
  have h9 : ("[Context " : String).length = 9 := by decide
  simp [String.length_append, h9]
  omega

/-- Helper: format_context produces one block per document. -/
theorem context_blocks_length : ∀ (i : Nat) (documents : List RetrievedDoc),
    (context_blocks i documents).length = documents.length
  | _, [] => rfl
  | i, _ :: rest => by
    simp [context_blocks, context_blocks_length (i + 1) rest]

/-- Claim C9: format_context of the empty list is the fixed sentinel string; it
never returns the empty string; and on a nonempty list it is the join of the
numbered Q/A blocks separated by blank lines, one block per document. -/
theorem format_context_spec :
    format_context [] = "No relevant information found in knowledge base." ∧
    (∀ documents : List RetrievedDoc, format_context documents ≠ "") ∧
    (∀ documents : List RetrievedDoc, documents ≠ [] →
      format_context documents = join_sep "\n\n" (context_blocks 1 documents) ∧
      (context_blocks 1 documents).length = documents.length) := by
  refine ⟨rfl, ?_, ?_⟩
  · intro documents
    cases documents with
    | nil => decide
    | cons doc rest =>
      intro hempty
      have hlong : 9 ≤ (format_context (doc :: rest)).length := by
        have h2 : format_context (doc :: rest) =
            join_sep "\n\n" (context_blocks 1 (doc :: rest)) := by
          simp [format_context]
        rw [h2]
        exact format_block_head_long 1 doc rest
      rw [hempty] at hlong
      simp at hlong
  · intro documents hne
    refine ⟨?_, context_blocks_length 1 documents⟩
    simp [format_context, hne]

/-- Witness for C9: two concrete documents produce the two expected numbered
blocks joined by one blank line. -/
theorem format_context_spec_witness :
    format_context [⟨"d0", 1, ⟨"q0", "a0"⟩⟩, ⟨"d1", 1 / 2, ⟨"q1", "a1"⟩⟩] =
      "[Context 1]\nQuestion: q0\nAnswer: a0\n\n[Context 2]\nQuestion: q1\nAnswer: a1" ∧
    format_context [⟨"d0", 1, ⟨"q0", "a0"⟩⟩, ⟨"d1", 1 / 2, ⟨"q1", "a1"⟩⟩] ≠ "" := by
  have h := format_context_spec
  refine ⟨?_, h.2.1 [⟨"d0", 1, ⟨"q0", "a0"⟩⟩, ⟨"d1", 1 / 2, ⟨"q1", "a1"⟩⟩]⟩
  have h2 := (h.2.2 [⟨"d0", 1, ⟨"q0", "a0"⟩⟩, ⟨"d1", 1 / 2, ⟨"q1", "a1"⟩⟩] (by simp)).1
  rw [h2]
  rfl

/-- Claim C3: the retrieve node executes at most once per request, it executes
exactly when the bucket after the conditional edge (the final bucket, after
sentiment override and missing-template re-route) is BUCKET_B, and in
particular it never executes when the final bucket is BUCKET_C or when the
bucket is a templated BUCKET_A. -/
theorem retrieval_iff_bucket_b (state : GState) :
    (executed_nodes state).count "retrieve" ≤ 1 ∧
    ((executed_nodes state).count "retrieve" = 1 ↔ final_bucket state = "BUCKET_B") ∧
    (final_bucket state = "BUCKET_C" → (executed_nodes state).count "retrieve" = 0) ∧
    (state.bucket = "BUCKET_A" → has_direct_response state.predicted_intent = true →
      (executed_nodes state).count "retrieve" = 0) := by
  by_cases hA : state.bucket = "BUCKET_A" <;>
    by_cases hT : has_direct_response state.predicted_intent <;>
    by_cases hB : state.bucket = "BUCKET_B" <;>
    simp_all [executed_nodes, final_bucket, should_retrieve]

/-- Witness for C3: on a concrete untemplated BUCKET_A state the retrieve node
runs once and the final bucket is BUCKET_B. -/
theorem retrieval_iff_bucket_b_witness :
    (executed_nodes ⟨"mystery", "BUCKET_A", "Zero", "BUCKET_A"⟩).count "retrieve" = 1 :=
  ((retrieval_iff_bucket_b ⟨"mystery", "BUCKET_A", "Zero", "BUCKET_A"⟩).2.1).mpr (by decide)

/-- Claim C4: on a BUCKET_A state, a missing template re-routes to BUCKET_B
with cost tier low and takes the retrieve edge while leaving the action field
(the stale original bucket label) untouched; a present template goes straight
to generation with no retrieval; the final bucket is BUCKET_B exactly when the
template is missing; the sentiment override never moves a BUCKET_A decision to
BUCKET_B; and whenever the decision after intent routing and override has
bucket BUCKET_A, its action is the label BUCKET_A. -/
theorem bucket_a_fallback :
    (∀ state : GState, state.bucket = "BUCKET_A" →
      (has_direct_response state.predicted_intent = false →
        should_retrieve state =
          ("retrieve", { state with bucket := "BUCKET_B", cost_tier := "low" })) ∧
      (has_direct_response state.predicted_intent = true →
        should_retrieve state = ("generate", state) ∧
        (executed_nodes state).count "retrieve" = 0) ∧
      (should_retrieve state).2.action = state.action ∧
      ((should_retrieve state).2.bucket = "BUCKET_B" ↔
        has_direct_response state.predicted_intent = false)) ∧
    (∀ (decision : RoutingDecision) (lab : String) (score : ℚ) (anger : Bool),
      decision.bucket = "BUCKET_A" →
      (apply_sentiment_override decision lab score anger).bucket ≠ "BUCKET_B") ∧
    (∀ (thr : ℚ) (intent_to_bucket : List (String × RoutingInfo)) (intent : String)
      (conf : ℚ) (lab : String) (score : ℚ) (anger : Bool),
      (route_and_override thr intent_to_bucket intent conf lab score anger).bucket =
        "BUCKET_A" →
      (route_and_override thr intent_to_bucket intent conf lab score anger).action =
        "BUCKET_A") := by
  refine ⟨?_, ?_, ?_⟩
  · intro state hA
    by_cases hT : has_direct_response state.predicted_intent <;>
      simp_all [should_retrieve, executed_nodes]
  · intro decision lab score anger hA
    rcases override_bucket_c_or_id decision lab score anger with h | h
    · rw [h]; simp
    · rw [h, hA]; simp
  · intro thr intent_to_bucket intent conf lab score anger h
    unfold route_and_override at h ⊢
    rcases override_bucket_c_or_id (get_routing_decision thr intent_to_bucket intent conf)
        lab score anger with hC | hid
    · rw [h] at hC; simp at hC
    · rw [hid] at h ⊢
      rcases routing_action_or_bucket_c thr intent_to_bucket intent conf with hact | hC
      · rw [hact, h]
      · rw [h] at hC; simp at hC

/-- Witness for C4: the concrete untemplated BUCKET_A state is re-routed to
BUCKET_B at cost tier low with its action left at BUCKET_A, and a templated
one is not. -/
theorem bucket_a_fallback_witness :
    should_retrieve ⟨"mystery", "BUCKET_A", "Zero", "BUCKET_A"⟩ =
      ("retrieve", ⟨"mystery", "BUCKET_B", "low", "BUCKET_A"⟩) ∧
    should_retrieve ⟨"track_order", "BUCKET_A", "Zero", "BUCKET_A"⟩ =
      ("generate", ⟨"track_order", "BUCKET_A", "Zero", "BUCKET_A"⟩) :=
  ⟨(bucket_a_fallback.1 ⟨"mystery", "BUCKET_A", "Zero", "BUCKET_A"⟩ rfl).1 (by decide),
   ((bucket_a_fallback.1 ⟨"track_order", "BUCKET_A", "Zero", "BUCKET_A"⟩ rfl).2.1
      (by decide)).1⟩

/-- Helper: a successful lookup returns one of the stored values. -/
theorem dictGet_mem_values {α : Type} (l : List (String × α)) (q : String) (v : α)
    (h : dictGet l q = some v) : v ∈ l.map Prod.snd := by
  induction l with
  | nil => simp [dictGet] at h
  | cons p rest ih =>
    obtain ⟨k, w⟩ := p
    by_cases hk : k = q <;> simp_all [dictGet]

/-- Helper: every canned BUCKET_A response, the default fallback included, is
a nonempty string. -/
theorem get_direct_response_ne_empty (intent : String) :
    get_direct_response intent ≠ "" := by
  unfold get_direct_response
  rcases h : dictGet DIRECT_RESPONSE_TEMPLATES intent with _ | v
  · decide
  · have hv := dictGet_mem_values _ _ _ h
    have hall : ∀ w ∈ DIRECT_RESPONSE_TEMPLATES.map Prod.snd, w ≠ "" := by decide
    simpa using hall v hv

/-- Helper: every BUCKET_C escalation message, the generic fallback included,
is a nonempty string. -/
theorem generate_bucket_c_ne_empty (intent : String) :
    generate_bucket_c_response intent ≠ "" := by
  unfold generate_bucket_c_response
  rcases h : dictGet escalation_messages intent with _ | v
  · decide
  · have hv := dictGet_mem_values _ _ _ h
    have hall : ∀ w ∈ escalation_messages.map Prod.snd, w ≠ "" := by decide
    simpa using hall v hv

/-- Helper: the unhandled-bucket message is nonempty. -/
theorem unable_to_process_ne_empty : unable_to_process ≠ "" := by decide

/-- Claim C7 (amended): the generation step always sets final_response —
BUCKET_A to the canned-template lookup result, BUCKET_C to the static
escalation message keyed by intent with the generic fallback for other
intents, and any unhandled bucket to the generic unable-to-process message,
all of which are nonempty; BUCKET_B sets it to the retrieval-augmented
generation result exactly, which the code does not guarantee nonempty (see
the counterexample: an external LLM text that cleans to the empty string is
stored as an empty final_response). -/
theorem generate_response_spec (bucket intent rag_response : String) :
    (bucket = "BUCKET_A" →
      generate_response bucket intent rag_response = get_direct_response intent ∧
      generate_response bucket intent rag_response ≠ "") ∧
    (bucket = "BUCKET_B" →
      generate_response bucket intent rag_response = rag_response) ∧
    (bucket = "BUCKET_C" →
      generate_response bucket intent rag_response = generate_bucket_c_response intent ∧
      generate_response bucket intent rag_response ≠ "") ∧
    (bucket ≠ "BUCKET_A" → bucket ≠ "BUCKET_B" → bucket ≠ "BUCKET_C" →
      generate_response bucket intent rag_response = unable_to_process ∧
      generate_response bucket intent rag_response ≠ "") := by
  unfold generate_response
  by_cases hA : bucket = "BUCKET_A" <;> by_cases hB : bucket = "BUCKET_B" <;>
    by_cases hC : bucket = "BUCKET_C" <;>
    simp_all [get_direct_response_ne_empty, generate_bucket_c_ne_empty,
      unable_to_process_ne_empty]

/-- Counterexample to claim C7 as stated: in the BUCKET_B branch the final
response is the cleaned external LLM text verbatim, so a generation result
that is (or cleans to) the empty string is stored as an empty final_response —
a terminal state whose final_response is not a nonempty string. -/
theorem generate_empty_counterexample :
    generate_response "BUCKET_B" "cancel_order" "" = "" := rfl

/-- Witness for amended C7: the concrete escalation for the complaint intent
is the keyed message and nonempty. -/
theorem generate_response_spec_witness :
    generate_response "BUCKET_C" "complaint" "ignored" =
      generate_bucket_c_response "complaint" ∧
    generate_response "BUCKET_C" "complaint" "ignored" ≠ "" :=
  (generate_response_spec "BUCKET_C" "complaint" "ignored").2.2.1 rfl

/-- Claim C10, the code evaluated at the failing input: for a model whose
predict_proba raises AttributeError and whose decision_function returns the
per-class score array [2, -1], the compatibility fallback keeps the raw
scores, and the confidence — the maximum of the returned values — is 2, which
is outside [0, 1]; the docstring of predict_intent promises a confidence score
in 0-1. -/
theorem predict_confidence_out_of_range :
    predict_confidence ⟨["refund", "order"], none, some (Sum.inr [2, -1])⟩ = some 2 ∧
    ¬((2 : ℚ) ≤ 1) := by
  constructor
  · rfl
  · norm_num
